import Mathlib

/-!
Verification of the agent message bus and task-orchestration core.

This file embeds, in Lean, the relevant parts of the Python sources:
  * `src/orchestration/task_manager.py`   — `TaskStatus`, `Task`, `TaskManager`
  * `src/orchestration/message_router.py` — `Message`, `MessageRouter`
  * `src/orchestration/agent_manager.py`  — `AgentManager`
  * `src/agents/executor.py`              — `ExecutorAgent`

Modelling conventions:
  * Python `datetime.now()` is an explicit `now : Nat` argument threaded into
    every operation that reads the clock.
  * Python dicts are association lists `List (String × β)` preserving insertion
    order (assignment updates in place, a new key is appended at the end,
    `del` removes the entry), matching CPython dict semantics.
  * Opaque Python payloads (`Any`-typed message contents, task results) are
    a small JSON-like `Payload` type (`None`, strings, string-keyed dicts).
  * A subscriber callback is a value carrying an identity and a flag saying
    whether invoking it raises; invoking one returns `Except`, and delivery
    records the invocation either way, mirroring the `try/except` in
    `MessageRouter.publish`.
  * The external conversational engine invoked by `ExecutorAgent.execute_task`
    is an explicit parameter `delegation : Except String (List ChatMsg)`:
    either the chat history it produced or the exception it raised.
-/

namespace NexAI

/-- Association-list lookup: the value stored under `key` (CPython dict `get`). -/
def alookup {β : Type} : List (String × β) → String → Option β
  | [], _ => none
  | (k, v) :: rest, key => if k = key then some v else alookup rest key

/-- Association-list assignment (CPython dict `d[key] = v`): update in place
    when the key is present, otherwise append at the end. -/
def aset {β : Type} : List (String × β) → String → β → List (String × β)
  | [], key, v => [(key, v)]
  | (k, w) :: rest, key, v =>
      if k = key then (k, v) :: rest else (k, w) :: aset rest key v

/-- Association-list deletion (CPython dict `del d[key]`). -/
def adel {β : Type} : List (String × β) → String → List (String × β)
  | [], _ => []
  | (k, w) :: rest, key => if k = key then rest else (k, w) :: adel rest key

/-- JSON-like opaque payload: Python `None`, strings, and string-keyed dicts. -/
inductive Payload where
  | null : Payload
  | str : String → Payload
  | dict : List (String × Payload) → Payload

/-- `p.get key` — CPython `p.get(key)` on a dict payload, `None`-defaulting. -/
def Payload.get : Payload → String → Option Payload
  | Payload.dict entries, key => alookup entries key
  | _, _ => none

/-- `src/orchestration/task_manager.py` — `TaskStatus`. -/
inductive TaskStatus where
  | pending | running | completed | failed | cancelled
deriving DecidableEq

/-- `TaskStatus` values regarded as terminal by the design. -/
def TaskStatus.isTerminal : TaskStatus → Bool
  | TaskStatus.completed => true
  | TaskStatus.failed => true
  | TaskStatus.cancelled => true
  | _ => false

/-- `src/orchestration/task_manager.py` — `Task`.  The recursive
    `subtasks : List[Task]` field is omitted: no operation verified here
    (`update_status`, `set_result`, `set_error`, the orchestrator handlers)
    reads or writes it except `add_subtask`, which no claim concerns. -/
structure Task where
  task_id : String
  description : String
  user_id : Option String
  status : TaskStatus
  created_at : Nat
  updated_at : Nat
  metadata : List (String × Payload)
  parent_task_id : Option String
  result : Option Payload
  error : Option String

/-- `Task.update_status`: sets the status and refreshes `updated_at`,
    unconditionally (the Python body has no transition guard). -/
def Task.update_status (t : Task) (status : TaskStatus) (now : Nat) : Task :=
  { t with status := status, updated_at := now }

/-- `Task.set_result`: stores the result, then `update_status(COMPLETED)`. -/
def Task.set_result (t : Task) (result : Payload) (now : Nat) : Task :=
  Task.update_status { t with result := some result } TaskStatus.completed now

/-- `Task.set_error`: stores the error, then `update_status(FAILED)`. -/
def Task.set_error (t : Task) (error : String) (now : Nat) : Task :=
  Task.update_status { t with error := some error } TaskStatus.failed now

/-- `src/orchestration/task_manager.py` — `TaskManager` (its `tasks` dict). -/
structure TaskManager where
  tasks : List (String × Task)

/-- `TaskManager.get_task`. -/
def TaskManager.get_task (tm : TaskManager) (task_id : String) : Option Task :=
  alookup tm.tasks task_id

/-- `TaskManager.update_task`: stores the task under its own id. -/
def TaskManager.update_task (tm : TaskManager) (t : Task) : TaskManager :=
  { tm with tasks := aset tm.tasks t.task_id t }

/-- `src/orchestration/message_router.py` — `MessageType`. -/
inductive MessageType where
  | task | result | error | status | command | notification
deriving DecidableEq

/-- `src/orchestration/message_router.py` — `Message`.
    `recipient_id = none` means broadcast. -/
structure Message where
  message_id : String
  sender_id : String
  recipient_id : Option String
  message_type : MessageType
  content : Payload
  created_at : Nat
  metadata : List (String × Payload)
  correlation_id : String

/-- A subscriber callback: an identity plus whether invoking it raises.
    (The Python callbacks are opaque callables whose only behaviour visible
    to the router is normal return versus a raised exception.) -/
structure CB where
  cb_id : Nat
  raises : Bool
deriving DecidableEq

/-- Invoking a callback: `Except.error` models a raised exception. -/
def runCallback (cb : CB) (_m : Message) : Except String Unit :=
  if cb.raises then Except.error "callback fault" else Except.ok ()

/-- The inner delivery loop of `MessageRouter.publish` over one subscriber's
    callback list: each callback is invoked in turn inside `try/except`, so
    the loop records the invocation and continues whether the call returned
    normally or raised. Returns the invocation trace. -/
def deliverTo (m : Message) : List CB → List CB
  | [] => []
  | cb :: rest =>
      match runCallback cb m with
      | Except.ok _ => cb :: deliverTo m rest
      | Except.error _ => cb :: deliverTo m rest

/-- `src/orchestration/message_router.py` — `MessageRouter`. -/
structure MessageRouter where
  subscribers : List (String × List CB)
  message_history : List Message
  max_history_size : Nat

/-- `MessageRouter.__init__`. -/
def MessageRouter.init : MessageRouter :=
  { subscribers := [], message_history := [], max_history_size := 1000 }

/-- `MessageRouter.publish`: append to history, `pop(0)` once the capacity is
    exceeded, compute the recipient list (`[recipient_id]` when truthy, else
    all subscribed ids), and invoke every callback of every recipient.
    Returns the updated router together with the invocation trace. -/
def MessageRouter.publish (r : MessageRouter) (m : Message) :
    MessageRouter × List CB :=
  let hist0 := r.message_history ++ [m]
  let hist := if r.max_history_size < hist0.length then hist0.drop 1 else hist0
  let recipients : List String :=
    match m.recipient_id with
    | some rid => if rid = "" then r.subscribers.map Prod.fst else [rid]
    | none => r.subscribers.map Prod.fst
  let invoked := recipients.flatMap fun rid =>
    match alookup r.subscribers rid with
    | some cbs => deliverTo m cbs
    | none => []
  ({ r with message_history := hist }, invoked)

/-- `MessageRouter.subscribe`: ensure a (possibly empty) list exists for the
    id, then append the callback. -/
def MessageRouter.subscribe (r : MessageRouter) (subscriber_id : String)
    (cb : CB) : MessageRouter :=
  let cur := (alookup r.subscribers subscriber_id).getD []
  { r with subscribers := aset r.subscribers subscriber_id (cur ++ [cb]) }

/-- `MessageRouter.unsubscribe`: with a callback, filter it out (deleting the
    id when its list becomes empty); without one, delete the id; a no-op when
    the id is unknown. -/
def MessageRouter.unsubscribe (r : MessageRouter) (subscriber_id : String)
    (cb : Option CB) : MessageRouter :=
  match alookup r.subscribers subscriber_id with
  | none => r
  | some cbs =>
      match cb with
      | some c =>
          let remaining := cbs.filter fun x => x ≠ c
          if remaining = [] then
            { r with subscribers := adel r.subscribers subscriber_id }
          else
            { r with subscribers := aset r.subscribers subscriber_id remaining }
      | none => { r with subscribers := adel r.subscribers subscriber_id }

/-- `MessageRouter.get_message_history`: `if limit:` is false for both `None`
    and `0`, returning the whole history; a non-zero limit returns the slice
    `history[-limit:]`. -/
def MessageRouter.get_message_history (r : MessageRouter) (limit : Option Nat) :
    List Message :=
  match limit with
  | some l =>
      if l = 0 then r.message_history
      else r.message_history.drop (r.message_history.length - l)
  | none => r.message_history

/-- Publishing a list of messages in order, discarding invocation traces. -/
def publishAll (r : MessageRouter) : List Message → MessageRouter
  | [] => r
  | m :: ms => publishAll (r.publish m).1 ms

/-- `src/agents/base_agent.py` — the `BaseAgent` record fields the registry
    claims need (identity only; callbacks are modelled separately as `CB`). -/
structure BaseAgent where
  agent_id : String
deriving DecidableEq

/-- `src/orchestration/agent_manager.py` — `AgentManager` (its `agents` dict). -/
structure AgentManager where
  agents : List (String × BaseAgent)

/-- `AgentManager.get_agent`. -/
def AgentManager.get_agent (am : AgentManager) (agent_id : String) :
    Option BaseAgent :=
  alookup am.agents agent_id

/-- `AgentManager.unregister_agent`: delete the entry and return `true` when
    present, else return `false`. It does not touch any `MessageRouter`. -/
def AgentManager.unregister_agent (am : AgentManager) (agent_id : String) :
    AgentManager × Bool :=
  if (alookup am.agents agent_id).isSome then
    ({ am with agents := adel am.agents agent_id }, true)
  else (am, false)

/-- One message of the external conversational engine's chat history
    (`role`, `name` and `content` keys of an AutoGen chat entry). -/
structure ChatMsg where
  role : String
  name : String
  content : Payload

/-- One subtask-tracking entry of `ExecutorAgent.active_tasks[..]["subtasks"]`:
    a dict with `status` (a plain string in the Python source), `result` and
    `error` keys. `Payload.null` stands for an absent/`None` result. -/
structure SubEntry where
  status : String
  result : Payload
  error : Option String

/-- One entry of `ExecutorAgent.active_tasks`. -/
structure ActiveEntry where
  task : Task
  subtasks : List (String × SubEntry)
  chat_history : List ChatMsg

/-- `src/agents/executor.py` — `ExecutorAgent` (the fields the orchestration
    logic reads: its task manager, the active-task table, and the
    `last_active` stamp that `BaseAgent.handle_message` refreshes). -/
structure ExecutorAgent where
  task_manager : TaskManager
  active_tasks : List (String × ActiveEntry)
  last_active : Nat

/-- `ExecutorAgent._finalize_task`: aggregate the results of the completed
    subtasks into a dict keyed by agent id, `set_result` with it, persist via
    the task manager, and delete the task from the active table. -/
def ExecutorAgent.finalize_task (e : ExecutorAgent) (task_id : String)
    (now : Nat) : ExecutorAgent :=
  match alookup e.active_tasks task_id with
  | none => e
  | some entry =>
      let results := (entry.subtasks.filter fun kv => kv.2.status == "completed").map
        fun kv => (kv.1, kv.2.result)
      let task2 := Task.set_result entry.task (Payload.dict results) now
      { e with task_manager := e.task_manager.update_task task2,
               active_tasks := adel e.active_tasks task_id }

/-- The two assignments of `_handle_subtask_result` on the sender's entry:
    `subtask["status"] = "completed"; subtask["result"] = result`. -/
def markDone (s : SubEntry) (result : Payload) : SubEntry :=
  { s with status := "completed", result := result }

/-- `ExecutorAgent._handle_subtask_result`: ignore unknown task ids; mark the
    sender's subtask entry completed with the result only when the sender
    already has an entry; then, if every tracked subtask is completed,
    finalize the task. -/
def ExecutorAgent.handle_subtask_result (e : ExecutorAgent) (task_id : String)
    (result : Payload) (sender_id : String) (now : Nat) : ExecutorAgent :=
  match alookup e.active_tasks task_id with
  | none => e
  | some entry =>
      let subtasks1 :=
        match alookup entry.subtasks sender_id with
        | some s => aset entry.subtasks sender_id (markDone s result)
        | none => entry.subtasks
      let active1 := aset e.active_tasks task_id { entry with subtasks := subtasks1 }
      let e1 := { e with active_tasks := active1 }
      let all_completed := subtasks1.all fun kv => kv.2.status == "completed"
      if all_completed then e1.finalize_task task_id now else e1

/-- `ExecutorAgent._handle_subtask_error`: ignore unknown task ids; mark the
    sender's subtask entry failed when the sender has an entry; then fail the
    task with a message naming the failing delegate, persist, and delete the
    task from the active table. -/
def ExecutorAgent.handle_subtask_error (e : ExecutorAgent) (task_id : String)
    (error : String) (sender_id : String) (now : Nat) : ExecutorAgent :=
  match alookup e.active_tasks task_id with
  | none => e
  | some entry =>
      let subtasks1 :=
        match alookup entry.subtasks sender_id with
        | some s =>
            aset entry.subtasks sender_id
              { s with status := "failed", error := some error }
        | none => entry.subtasks
      let active1 := aset e.active_tasks task_id { entry with subtasks := subtasks1 }
      let task2 := Task.set_error entry.task
        ("Subtask executed by " ++ sender_id ++ " failed: " ++ error) now
      { e with task_manager := e.task_manager.update_task task2,
               active_tasks := adel active1 task_id }

/-- `ExecutorAgent.execute_task`: move the task to RUNNING, persist, register
    it in the active table with an empty subtask map, then run the delegation
    (the external engine); on a chat history, store it and set the last
    executor message as the result (or an error when there is none); on a
    raised exception, set the fault description as the error; finally persist
    and delete the task from the active table. -/
def ExecutorAgent.execute_task (e : ExecutorAgent) (task : Task)
    (delegation : Except String (List ChatMsg)) (now : Nat) : ExecutorAgent :=
  let task1 := Task.update_status task TaskStatus.running now
  let tm1 := e.task_manager.update_task task1
  let active1 := aset e.active_tasks task1.task_id
    { task := task1, subtasks := [], chat_history := [] }
  match delegation with
  | Except.ok chat_history =>
      let active2 :=
        match alookup active1 task1.task_id with
        | some entry =>
            aset active1 task1.task_id { entry with chat_history := chat_history }
        | none => active1
      let final_messages := chat_history.filter fun msg =>
        msg.role == "assistant" && msg.name == "executor"
      let task2 :=
        match final_messages.getLast? with
        | some lastMsg => Task.set_result task1 lastMsg.content now
        | none =>
            Task.set_error task1
              "No final result was produced by the executor agent" now
      { e with task_manager := tm1.update_task task2,
               active_tasks := adel active2 task1.task_id }
  | Except.error exc =>
      let task2 := Task.set_error task1 ("Error during execution: " ++ exc) now
      { e with task_manager := tm1.update_task task2,
               active_tasks := adel active1 task1.task_id }

/-- `ExecutorAgent._process_task`: look the task up, ignore unknown ids, and
    execute it. -/
def ExecutorAgent.process_task (e : ExecutorAgent) (task_id : String)
    (delegation : Except String (List ChatMsg)) (now : Nat) : ExecutorAgent :=
  match e.task_manager.get_task task_id with
  | none => e
  | some t => e.execute_task t delegation now

/-- Python truthiness of `content.get("task_id")`: a non-empty string.
    (Only string task ids are modelled; the active table's keys are strings.) -/
def truthyStr : Option Payload → Option String
  | some (Payload.str s) => if s = "" then none else some s
  | _ => none

/-- The f-string rendering of `content.get("error")` as it reaches
    `_handle_subtask_error`: a string payload renders as itself, an absent or
    `None` payload renders as `"None"`. (Dict-valued error payloads are
    outside the modelled payload discipline and also render `"None"`.) -/
def pyStr : Option Payload → String
  | some (Payload.str s) => s
  | _ => "None"

/-- `ExecutorAgent.handle_message`: refresh `last_active` (the
    `super().handle_message` call), then dispatch on the message type; RESULT
    and ERROR are forwarded to their handlers only when the content carries a
    truthy task id that is tracked in the active table. -/
def ExecutorAgent.handle_message (e : ExecutorAgent) (m : Message)
    (delegation : Except String (List ChatMsg)) (now : Nat) : ExecutorAgent :=
  let e0 : ExecutorAgent := { e with last_active := now }
  match m.message_type with
  | MessageType.task =>
      match truthyStr (m.content.get "task_id") with
      | some tid => e0.process_task tid delegation now
      | none => e0
  | MessageType.result =>
      match truthyStr (m.content.get "task_id") with
      | some tid =>
          if (alookup e0.active_tasks tid).isSome then
            e0.handle_subtask_result tid
              ((m.content.get "result").getD Payload.null) m.sender_id now
          else e0
      | none => e0
  | MessageType.error =>
      match truthyStr (m.content.get "task_id") with
      | some tid =>
          if (alookup e0.active_tasks tid).isSome then
            e0.handle_subtask_error tid (pyStr (m.content.get "error"))
              m.sender_id now
          else e0
      | none => e0
  | _ => e0

/-! ### Association-list lemmas -/

theorem alookup_aset_self {β : Type} (l : List (String × β)) (k : String) (v : β) :
    alookup (aset l k v) k = some v := by
  induction l with
  | nil => simp [aset, alookup]
  | cons kv rest ih =>
      obtain ⟨a, b⟩ := kv
      by_cases h : a = k
      · simp [aset, alookup, h]
      · simp [aset, alookup, h, ih]

theorem alookup_aset_ne {β : Type} (l : List (String × β)) (k k' : String) (v : β)
    (h : k' ≠ k) : alookup (aset l k v) k' = alookup l k' := by
  have hkk : ¬k = k' := fun hk => h hk.symm
  induction l with
  | nil => simp [aset, alookup, hkk]
  | cons kv rest ih =>
      obtain ⟨a, b⟩ := kv
      by_cases ha : a = k
      · subst ha
        simp [aset, alookup, hkk]
      · simp only [aset, if_neg ha, alookup]
        by_cases ha' : a = k'
        · simp [ha']
        · simp [ha', ih]

theorem alookup_eq_none_iff {β : Type} (l : List (String × β)) (k : String) :
    alookup l k = none ↔ k ∉ l.map Prod.fst := by
  induction l with
  | nil => simp [alookup]
  | cons kv rest ih =>
      obtain ⟨a, b⟩ := kv
      by_cases h : a = k
      · simp [alookup, h]
      · have hk : ¬k = a := fun hk => h hk.symm
        simp [alookup, h, ih, hk]

theorem keys_aset_of_mem {β : Type} (l : List (String × β)) (k : String) (v : β)
    (h : (alookup l k).isSome) :
    (aset l k v).map Prod.fst = l.map Prod.fst := by
  induction l with
  | nil => simp [alookup] at h
  | cons kv rest ih =>
      obtain ⟨a, b⟩ := kv
      by_cases ha : a = k
      · simp [aset, ha]
      · simp [alookup, ha] at h
        simp [aset, ha, ih h]

theorem keys_aset_of_none {β : Type} (l : List (String × β)) (k : String) (v : β)
    (h : alookup l k = none) :
    (aset l k v).map Prod.fst = l.map Prod.fst ++ [k] := by
  induction l with
  | nil => simp [aset]
  | cons kv rest ih =>
      obtain ⟨a, b⟩ := kv
      by_cases ha : a = k
      · simp [alookup, ha] at h
      · simp [alookup, ha] at h
        simp [aset, ha, ih h]

theorem nodup_keys_aset {β : Type} (l : List (String × β)) (k : String) (v : β)
    (hnd : (l.map Prod.fst).Nodup) : ((aset l k v).map Prod.fst).Nodup := by
  cases h : alookup l k with
  | some w => rw [keys_aset_of_mem l k v (by simp [h])]; exact hnd
  | none =>
      rw [keys_aset_of_none l k v h]
      have hk : k ∉ l.map Prod.fst := (alookup_eq_none_iff l k).mp h
      refine List.Nodup.append hnd (List.nodup_singleton k) ?_
      intro x hx hxmem
      simp only [List.mem_singleton] at hxmem
      exact hk (hxmem ▸ hx)

theorem adel_of_alookup_none {β : Type} (l : List (String × β)) (k : String)
    (h : alookup l k = none) : adel l k = l := by
  induction l with
  | nil => rfl
  | cons kv rest ih =>
      obtain ⟨a, b⟩ := kv
      by_cases ha : a = k
      · simp [alookup, ha] at h
      · simp [alookup, ha] at h
        simp [adel, ha, ih h]

theorem alookup_adel_self {β : Type} (l : List (String × β)) (k : String)
    (hnd : (l.map Prod.fst).Nodup) : alookup (adel l k) k = none := by
  induction l with
  | nil => rfl
  | cons kv rest ih =>
      obtain ⟨a, b⟩ := kv
      simp only [List.map_cons, List.nodup_cons] at hnd
      by_cases ha : a = k
      · subst ha
        simp only [adel, if_pos rfl]
        exact (alookup_eq_none_iff rest a).mpr hnd.1
      · simp [adel, alookup, ha, ih hnd.2]

theorem alookup_adel_ne {β : Type} (l : List (String × β)) (k k' : String)
    (h : k' ≠ k) : alookup (adel l k) k' = alookup l k' := by
  induction l with
  | nil => rfl
  | cons kv rest ih =>
      obtain ⟨a, b⟩ := kv
      by_cases ha : a = k
      · subst ha
        have hk : ¬a = k' := fun hk => h hk.symm
        simp [adel, alookup, hk]
      · simp [adel, alookup, ha, ih]

/-! ### Concrete fixtures -/

/-- A concrete FAILED task with a stored error. -/
def failedTask : Task :=
  { task_id := "t1", description := "d", user_id := none,
    status := TaskStatus.failed, created_at := 0, updated_at := 0,
    metadata := [], parent_task_id := none, result := none,
    error := some "boom" }

/-- A concrete fresh PENDING task. -/
def freshTask : Task :=
  { task_id := "t2", description := "d", user_id := none,
    status := TaskStatus.pending, created_at := 0, updated_at := 0,
    metadata := [], parent_task_id := none, result := none,
    error := none }

/-! ### C1 — terminal-state transitions -/

/-- C1, counterexample: the claim says `Task.update_status` rejects every
    transition out of a terminal state and leaves status, result, error and
    `updated_at` unchanged, and that `set_result` on an already-FAILED task
    raises InvalidTransition. On the concrete FAILED task, `update_status`
    changes the status to RUNNING and refreshes `updated_at`, and
    `set_result` completes the task — no rejection happens anywhere. -/
theorem C1_counterexample :
    (Task.update_status failedTask TaskStatus.running 5).status ≠ failedTask.status
    ∧ (Task.update_status failedTask TaskStatus.running 5).updated_at ≠ failedTask.updated_at
    ∧ (Task.set_result failedTask (Payload.str "r") 5).status = TaskStatus.completed :=
  ⟨by decide, by decide, rfl⟩

/-- C1, amended: for every task whose status is terminal (COMPLETED, FAILED
    or CANCELLED) and every target status, `Task.update_status` performs the
    transition unconditionally — there is no InvalidTransition error — setting
    the status to the target, refreshing `updated_at`, and leaving result and
    error unchanged; in particular `set_result` on an already-FAILED task
    does not raise: it stores the result, transitions the task to COMPLETED,
    and leaves the stored error untouched. -/
theorem C1_update_status_unguarded (t : Task) (s : TaskStatus) (p : Payload)
    (now : Nat) (_hterm : t.status.isTerminal = true) :
    ((Task.update_status t s now).status = s
      ∧ (Task.update_status t s now).result = t.result
      ∧ (Task.update_status t s now).error = t.error
      ∧ (Task.update_status t s now).updated_at = now)
    ∧ (t.status = TaskStatus.failed →
        (Task.set_result t p now).status = TaskStatus.completed
        ∧ (Task.set_result t p now).error = t.error
        ∧ (Task.set_result t p now).result = some p) :=
  ⟨⟨rfl, rfl, rfl, rfl⟩, fun _ => ⟨rfl, rfl, rfl⟩⟩

/-- C1, witness: the amended theorem applied to the concrete FAILED task. -/
theorem C1_witness :
    failedTask.status.isTerminal = true
    ∧ (((Task.update_status failedTask TaskStatus.running 5).status = TaskStatus.running
        ∧ (Task.update_status failedTask TaskStatus.running 5).result = failedTask.result
        ∧ (Task.update_status failedTask TaskStatus.running 5).error = failedTask.error
        ∧ (Task.update_status failedTask TaskStatus.running 5).updated_at = 5)
      ∧ (failedTask.status = TaskStatus.failed →
          (Task.set_result failedTask (Payload.str "r") 5).status = TaskStatus.completed
          ∧ (Task.set_result failedTask (Payload.str "r") 5).error = failedTask.error
          ∧ (Task.set_result failedTask (Payload.str "r") 5).result = some (Payload.str "r"))) :=
  ⟨by decide, C1_update_status_unguarded failedTask TaskStatus.running (Payload.str "r") 5 (by decide)⟩

/-! ### C4 — result/error mutual exclusion -/

/-- C4, counterexample: the claim says no sequence of `set_result`/`set_error`
    calls leaves both result and error set. Calling `set_error` and then
    `set_result` on a fresh task does exactly that. -/
theorem C4_counterexample :
    ((Task.set_error freshTask "e" 1).set_result (Payload.str "r") 2).result
        = some (Payload.str "r")
    ∧ ((Task.set_error freshTask "e" 1).set_result (Payload.str "r") 2).error
        = some "e" :=
  ⟨rfl, rfl⟩

/-- C4, amended: `Task.set_result` stores the result and transitions the task
    to COMPLETED unconditionally — it does not fail when the error is already
    set, so `set_error` followed by `set_result` ends with both the result
    and the error set. -/
theorem C4_set_result_unconditional (t : Task) (p : Payload) (er : String)
    (n m : Nat) :
    ((Task.set_result t p n).result = some p
      ∧ (Task.set_result t p n).status = TaskStatus.completed
      ∧ (Task.set_result t p n).error = t.error)
    ∧ (((Task.set_error t er n).set_result p m).result = some p
      ∧ ((Task.set_error t er n).set_result p m).error = some er
      ∧ ((Task.set_error t er n).set_result p m).status = TaskStatus.completed) :=
  ⟨⟨rfl, rfl, rfl⟩, rfl, rfl, rfl⟩

/-! ### C10 — history limit 0 -/

/-- C10: `get_message_history` with limit 0 returns the entire retained
    history in publish order (Python `if limit:` is false at `0`), exactly as
    when the limit is omitted, rather than returning zero messages. -/
theorem C10_zero_limit_full_history (r : MessageRouter) :
    r.get_message_history (some 0) = r.message_history
    ∧ r.get_message_history none = r.message_history :=
  ⟨rfl, rfl⟩

/-! ### Delivery-trace lemmas for `MessageRouter.publish` -/

/-- The delivery loop invokes every callback of the list exactly once, in
    order, independently of which callbacks raise: the `try/except` absorbs
    the fault and continues. -/
theorem deliverTo_eq (m : Message) (cbs : List CB) : deliverTo m cbs = cbs := by
  induction cbs with
  | nil => rfl
  | cons cb rest ih =>
      cases hr : runCallback cb m with
      | ok u => simp [deliverTo, hr, ih]
      | error s => simp [deliverTo, hr, ih]

theorem trace_entry_eq (l : List (String × List CB)) (m : Message) (rid : String) :
    (match alookup l rid with
      | some cbs => deliverTo m cbs
      | none => []) = (alookup l rid).getD [] := by
  cases h : alookup l rid <;> simp [h, deliverTo_eq]

theorem flatMap_alookup_values (l : List (String × List CB))
    (hnd : (l.map Prod.fst).Nodup) :
    ((l.map Prod.fst).flatMap fun rid => (alookup l rid).getD [])
      = l.flatMap fun kv => kv.2 := by
  induction l with
  | nil => rfl
  | cons kv rest ih =>
      obtain ⟨a, cbs⟩ := kv
      simp only [List.map_cons, List.nodup_cons] at hnd
      obtain ⟨ha, hrest⟩ := hnd
      simp only [List.map_cons, List.flatMap_cons]
      have hhead : alookup ((a, cbs) :: rest) a = some cbs := by simp [alookup]
      have htail : (rest.map Prod.fst).flatMap
            (fun rid => (alookup ((a, cbs) :: rest) rid).getD [])
          = (rest.map Prod.fst).flatMap fun rid => (alookup rest rid).getD [] := by
        refine List.flatMap_congr fun rid hin => ?_
        have hne : ¬a = rid := fun e => ha (e ▸ hin)
        simp [alookup, hne]
      rw [hhead, htail, ih hrest]
      simp

/-- A published message with a truthy direct recipient is delivered to that
    recipient's callback list. -/
theorem publish_trace_direct (r : MessageRouter) (m : Message) (rid : String)
    (h : m.recipient_id = some rid) (hne : rid ≠ "") :
    (r.publish m).2 = (alookup r.subscribers rid).getD [] := by
  simp only [MessageRouter.publish, h, trace_entry_eq]
  simp [hne, trace_entry_eq]

/-- A broadcast is delivered once to every subscription of every id. -/
theorem publish_trace_broadcast (r : MessageRouter) (m : Message)
    (hb : m.recipient_id = none)
    (hnd : (r.subscribers.map Prod.fst).Nodup) :
    (r.publish m).2 = r.subscribers.flatMap fun kv => kv.2 := by
  simp only [MessageRouter.publish, hb]
  simp only [trace_entry_eq]
  exact flatMap_alookup_values r.subscribers hnd

/-- Publishing always appends the message at the end of the history (the
    capacity eviction pops from the front and cannot remove it while the
    capacity is positive). -/
theorem publish_history_getLast (r : MessageRouter) (m : Message)
    (hM : 0 < r.max_history_size) :
    (r.publish m).1.message_history.getLast? = some m := by
  simp only [MessageRouter.publish]
  by_cases hc : r.max_history_size < (r.message_history ++ [m]).length
  · rw [if_pos hc]
    cases hh : r.message_history with
    | nil => simp [hh] at hc; omega
    | cons a t =>
        simp only [List.cons_append, List.drop_succ_cons, List.drop_zero]
        exact List.getLast?_concat t
  · rw [if_neg hc]
    exact List.getLast?_concat _

/-! ### C6 — exactly-once delivery -/

/-- C6: for every publish, every callback subscribed under the message's
    truthy recipient id (or, for an absent recipient, every callback of every
    subscribed id) appears exactly once in the invocation trace, in
    subscription order — the trace equals the subscription lists themselves,
    so callbacks that raise neither disappear nor abort delivery to the
    remaining subscribers; publishing to a recipient id with no subscribers
    invokes no callback and raises no error, and the message is still
    appended to the history. -/
theorem C6_publish_exactly_once (r : MessageRouter) (m : Message)
    (hM : 0 < r.max_history_size)
    (hnd : (r.subscribers.map Prod.fst).Nodup) :
    (∀ rid : String, m.recipient_id = some rid → rid ≠ "" →
        (r.publish m).2 = (alookup r.subscribers rid).getD []
        ∧ (alookup r.subscribers rid = none → (r.publish m).2 = []))
    ∧ (m.recipient_id = none →
        (r.publish m).2 = r.subscribers.flatMap fun kv => kv.2)
    ∧ (r.publish m).1.message_history.getLast? = some m := by
  refine ⟨fun rid h hne => ?_,
    fun hb => publish_trace_broadcast r m hb hnd,
    publish_history_getLast r m hM⟩
  have hd := publish_trace_direct r m rid h hne
  exact ⟨hd, fun hnone => by simp [hd, hnone]⟩

/-- A callback that returns normally. -/
def cbOk : CB := { cb_id := 1, raises := false }

/-- A callback that raises when invoked. -/
def cbBad : CB := { cb_id := 2, raises := true }

/-- A router with a faulting and a normal callback under `"x"` and another
    normal callback under `"y"`. -/
def c6router : MessageRouter :=
  { subscribers := [("x", [cbBad, cbOk]), ("y", [cbOk])],
    message_history := [], max_history_size := 1000 }

/-- A direct message to `"x"`. -/
def c6msg : Message :=
  { message_id := "m", sender_id := "s", recipient_id := some "x",
    message_type := MessageType.notification, content := Payload.null,
    created_at := 0, metadata := [], correlation_id := "m" }

/-- C6, witness: the exactly-once theorem applied to the concrete router
    whose first callback under `"x"` raises. -/
theorem C6_witness :
    0 < c6router.max_history_size
    ∧ (c6router.subscribers.map Prod.fst).Nodup
    ∧ ((∀ rid : String, c6msg.recipient_id = some rid → rid ≠ "" →
          (c6router.publish c6msg).2 = (alookup c6router.subscribers rid).getD []
          ∧ (alookup c6router.subscribers rid = none → (c6router.publish c6msg).2 = []))
      ∧ (c6msg.recipient_id = none →
          (c6router.publish c6msg).2 = c6router.subscribers.flatMap fun kv => kv.2)
      ∧ (c6router.publish c6msg).1.message_history.getLast? = some c6msg) :=
  ⟨by decide, by decide,
    C6_publish_exactly_once c6router c6msg (by decide) (by decide)⟩

/-! ### C8 — unregistration and subscriptions -/

/-- An agent manager with the single agent `"a"` registered. -/
def c8am : AgentManager := { agents := [("a", { agent_id := "a" })] }

/-- A router with two active subscriptions for the agent id `"a"`. -/
def c8router : MessageRouter :=
  { subscribers := [("a", [cbOk, cbBad])],
    message_history := [], max_history_size := 1000 }

/-- A broadcast message (no recipient). -/
def broadcastMsg : Message :=
  { message_id := "b", sender_id := "s", recipient_id := none,
    message_type := MessageType.notification, content := Payload.null,
    created_at := 0, metadata := [], correlation_id := "b" }

/-- C8, counterexample: the claim says unregistering an agent id with two
    active subscriptions removes both callbacks and a subsequent broadcast
    invokes neither. `AgentManager.unregister_agent` only deletes the agent
    from its own registry — no code path reaches
    `MessageRouter.unsubscribe` — so after unregistering `"a"` a broadcast
    still invokes both of `"a"`'s callbacks. -/
theorem C8_counterexample :
    (c8am.unregister_agent "a").2 = true
    ∧ (c8am.unregister_agent "a").1.agents = []
    ∧ (c8router.publish broadcastMsg).2 = [cbOk, cbBad] :=
  ⟨by decide, by decide, by decide⟩

/-- C8, amended: unregistering an agent id removes it from the agent
    registry (returning `true`) but leaves its message-router subscriptions
    untouched, so a subsequent broadcast still invokes every subscribed
    callback, the unregistered agent's two included; `unsubscribe` with the
    callback argument omitted does remove every callback registered for that
    id, and is a no-op when the id is unknown. -/
theorem C8_unregister_leaves_subscriptions (am : AgentManager)
    (r : MessageRouter) (aid : String) (m : Message)
    (hb : m.recipient_id = none)
    (hnd : (r.subscribers.map Prod.fst).Nodup)
    (hnda : (am.agents.map Prod.fst).Nodup)
    (hreg : (alookup am.agents aid).isSome = true) :
    ((am.unregister_agent aid).2 = true
      ∧ (am.unregister_agent aid).1.get_agent aid = none)
    ∧ ((r.publish m).2 = r.subscribers.flatMap fun kv => kv.2)
    ∧ ((r.unsubscribe aid none).subscribers = adel r.subscribers aid
      ∧ alookup (r.unsubscribe aid none).subscribers aid = none)
    ∧ (∀ sid c, alookup r.subscribers sid = none → r.unsubscribe sid c = r) := by
  refine ⟨⟨?_, ?_⟩, publish_trace_broadcast r m hb hnd, ⟨?_, ?_⟩, ?_⟩
  · simp [AgentManager.unregister_agent, hreg]
  · simp [AgentManager.unregister_agent, hreg, AgentManager.get_agent,
      alookup_adel_self am.agents aid hnda]
  · cases h : alookup r.subscribers aid with
    | none => simp [MessageRouter.unsubscribe, h, adel_of_alookup_none r.subscribers aid h]
    | some cbs => simp [MessageRouter.unsubscribe, h]
  · cases h : alookup r.subscribers aid with
    | none => simp [MessageRouter.unsubscribe, h]
    | some cbs => simp [MessageRouter.unsubscribe, h, alookup_adel_self r.subscribers aid hnd]
  · intro sid c hsid
    simp [MessageRouter.unsubscribe, hsid]

/-- C8, witness: the amended theorem applied to the concrete registry and
    router with two subscriptions under `"a"`. -/
theorem C8_witness :
    broadcastMsg.recipient_id = none
    ∧ (c8router.subscribers.map Prod.fst).Nodup
    ∧ (c8am.agents.map Prod.fst).Nodup
    ∧ (alookup c8am.agents "a").isSome = true
    ∧ (((c8am.unregister_agent "a").2 = true
        ∧ (c8am.unregister_agent "a").1.get_agent "a" = none)
      ∧ ((c8router.publish broadcastMsg).2 = c8router.subscribers.flatMap fun kv => kv.2)
      ∧ ((c8router.unsubscribe "a" none).subscribers = adel c8router.subscribers "a"
        ∧ alookup (c8router.unsubscribe "a" none).subscribers "a" = none)
      ∧ (∀ sid c, alookup c8router.subscribers sid = none →
          c8router.unsubscribe sid c = c8router)) :=
  ⟨rfl, by decide, by decide, by decide,
    C8_unregister_leaves_subscriptions c8am c8router "a" broadcastMsg rfl
      (by decide) (by decide) (by decide)⟩

/-! ### C5 — bounded FIFO history -/

/-- After publishing `ms` on a router whose history respects its capacity,
    the history is the suffix of `old history ++ ms` that fits the capacity:
    eviction is FIFO, oldest first. -/
theorem drop_one_append {α : Type} (l ms : List α) (k : Nat) (hl : l ≠ []) :
    ((l.drop 1) ++ ms).drop k = (l ++ ms).drop (k + 1) := by
  cases l with
  | nil => exact absurd rfl hl
  | cons a t => simp [List.drop_succ_cons]

theorem publishAll_history (s : List (String × List CB)) (M : Nat)
    (ms : List Message) :
    ∀ h : List Message, h.length ≤ M →
    (publishAll { subscribers := s, message_history := h, max_history_size := M }
        ms).message_history
      = (h ++ ms).drop (h.length + ms.length - M) := by
  induction ms with
  | nil =>
      intro h hh
      have h0 : h.length - M = 0 := by omega
      simp [publishAll, h0]
  | cons m ms ih =>
      intro h hh
      have hpub : (MessageRouter.publish
          { subscribers := s, message_history := h, max_history_size := M } m).1
          = { subscribers := s,
              message_history :=
                if M < (h ++ [m]).length then (h ++ [m]).drop 1 else h ++ [m],
              max_history_size := M } := rfl
      rw [publishAll, hpub]
      by_cases hc : M < (h ++ [m]).length
      · rw [if_pos hc]
        have hM : h.length = M := by
          simp only [List.length_append, List.length_cons, List.length_nil] at hc
          omega
        have hlen1 : ((h ++ [m]).drop 1).length = M := by
          simp only [List.length_drop, List.length_append, List.length_cons,
            List.length_nil]
          omega
        rw [ih _ (le_of_eq hlen1), hlen1]
        have e1 : M + ms.length - M = ms.length := by omega
        rw [e1, drop_one_append (h ++ [m]) ms ms.length (by simp)]
        have e2 : h.length + (m :: ms).length - M = ms.length + 1 := by
          simp only [List.length_cons]
          omega
        rw [e2, List.append_assoc]
        simp
      · rw [if_neg hc]
        have hlen : (h ++ [m]).length ≤ M := Nat.not_lt.mp hc
        rw [ih _ hlen]
        have e3 : (h ++ [m]).length + ms.length - M
            = h.length + (m :: ms).length - M := by
          simp only [List.length_append, List.length_cons, List.length_nil]
          omega
        rw [e3, List.append_assoc]
        simp

/-- C5: starting from a fresh router (capacity 1000), after any sequence of
    publishes the history never holds more than 1000 messages and equals the
    most recent 1000 published messages in publish order (the older ones were
    evicted FIFO, oldest first, and are unrecoverable — every history query
    returns a suffix of the retained history); for every positive limit,
    `get_message_history limit` returns the most recent
    `min limit retained` messages in publish order. -/
theorem C5_bounded_fifo_history (msgs : List Message) :
    ((publishAll MessageRouter.init msgs).message_history.length ≤ 1000)
    ∧ (publishAll MessageRouter.init msgs).message_history
        = msgs.drop (msgs.length - 1000)
    ∧ (∀ limit : Nat, 0 < limit →
        (publishAll MessageRouter.init msgs).get_message_history (some limit)
          = (publishAll MessageRouter.init msgs).message_history.drop
              ((publishAll MessageRouter.init msgs).message_history.length - limit)
        ∧ ((publishAll MessageRouter.init msgs).get_message_history (some limit)).length
          = min limit (publishAll MessageRouter.init msgs).message_history.length) := by
  have key := publishAll_history [] 1000 msgs [] (by simp)
  simp only [List.nil_append, List.length_nil, Nat.zero_add] at key
  have hist_eq : (publishAll MessageRouter.init msgs).message_history
      = msgs.drop (msgs.length - 1000) := key
  refine ⟨?_, hist_eq, fun limit hlim => ?_⟩
  · rw [hist_eq, List.length_drop]
    omega
  · constructor
    · simp [MessageRouter.get_message_history, Nat.pos_iff_ne_zero.mp hlim]
    · simp only [MessageRouter.get_message_history,
        if_neg (Nat.pos_iff_ne_zero.mp hlim), List.length_drop]
      omega

/-- C5, witness: the theorem applied to a one-message publish sequence with
    limit 1. -/
theorem C5_witness :
    (0:Nat) < 1
    ∧ ((publishAll MessageRouter.init [broadcastMsg]).get_message_history (some 1)
        = (publishAll MessageRouter.init [broadcastMsg]).message_history.drop
            ((publishAll MessageRouter.init [broadcastMsg]).message_history.length - 1)
      ∧ ((publishAll MessageRouter.init [broadcastMsg]).get_message_history (some 1)).length
        = min 1 (publishAll MessageRouter.init [broadcastMsg]).message_history.length) :=
  ⟨Nat.one_pos, (C5_bounded_fifo_history [broadcastMsg]).2.2 1 Nat.one_pos⟩

/-! ### Executor lemmas -/

theorem set_error_task_id (t : Task) (s : String) (n : Nat) :
    (Task.set_error t s n).task_id = t.task_id := rfl

theorem set_result_task_id (t : Task) (p : Payload) (n : Nat) :
    (Task.set_result t p n).task_id = t.task_id := rfl

theorem update_status_task_id (t : Task) (s : TaskStatus) (n : Nat) :
    (Task.update_status t s n).task_id = t.task_id := rfl

/-! ### C3 — subtask error fails the task immediately -/

/-- C3: for every tracked task, `_handle_subtask_error` sets the task to
    FAILED with an error message identifying the failing agent, persists it
    in the task manager, and removes the task from the active table; a RESULT
    message for that task id arriving afterwards only refreshes
    `last_active` — it is discarded without touching the task manager or the
    active table, so it cannot change the failed task's status or result. -/
theorem C3_error_fails_task (e : ExecutorAgent) (tid err sender : String)
    (entry : ActiveEntry) (now : Nat)
    (htrack : alookup e.active_tasks tid = some entry)
    (hid : entry.task.task_id = tid)
    (hnd : (e.active_tasks.map Prod.fst).Nodup) :
    alookup (e.handle_subtask_error tid err sender now).active_tasks tid = none
    ∧ (e.handle_subtask_error tid err sender now).task_manager.get_task tid
        = some (Task.set_error entry.task
            ("Subtask executed by " ++ sender ++ " failed: " ++ err) now)
    ∧ (Task.set_error entry.task
        ("Subtask executed by " ++ sender ++ " failed: " ++ err) now).status
        = TaskStatus.failed
    ∧ (Task.set_error entry.task
        ("Subtask executed by " ++ sender ++ " failed: " ++ err) now).error
        = some ("Subtask executed by " ++ sender ++ " failed: " ++ err)
    ∧ (∀ (m : Message) (deleg : Except String (List ChatMsg)) (now' : Nat),
        m.message_type = MessageType.result →
        truthyStr (m.content.get "task_id") = some tid →
        (e.handle_subtask_error tid err sender now).handle_message m deleg now'
          = { e.handle_subtask_error tid err sender now with last_active := now' }) := by
  have h1 : alookup (e.handle_subtask_error tid err sender now).active_tasks tid
      = none := by
    simp only [ExecutorAgent.handle_subtask_error, htrack]
    refine alookup_adel_self _ _ ?_
    rw [keys_aset_of_mem _ _ _ (by simp [htrack])]
    exact hnd
  refine ⟨h1, ?_, rfl, rfl, ?_⟩
  · simp only [ExecutorAgent.handle_subtask_error, htrack, TaskManager.get_task,
      TaskManager.update_task]
    rw [show (Task.set_error entry.task
        ("Subtask executed by " ++ sender ++ " failed: " ++ err) now).task_id
        = tid from hid]
    exact alookup_aset_self _ _ _
  · intro m deleg now' hm htid'
    simp [ExecutorAgent.handle_message, hm, htid', h1]

/-- A concrete RUNNING task with id `"T"`. -/
def runningTaskT : Task :=
  { task_id := "T", description := "d", user_id := none,
    status := TaskStatus.running, created_at := 0, updated_at := 0,
    metadata := [], parent_task_id := none, result := none, error := none }

/-- A pending subtask-tracking entry. -/
def pendingEntry : SubEntry :=
  { status := "pending", result := Payload.null, error := none }

/-- An executor tracking task `"T"` with one pending subtask delegated to
    `"A1"`. -/
def c3exec : ExecutorAgent :=
  { task_manager := { tasks := [("T", runningTaskT)] },
    active_tasks := [("T",
      { task := runningTaskT, subtasks := [("A1", pendingEntry)],
        chat_history := [] })],
    last_active := 0 }

/-- C3, witness: the theorem applied to the concrete executor tracking task
    `"T"`, with agent `"A1"` reporting the error. -/
theorem C3_witness :
    alookup c3exec.active_tasks "T"
      = some { task := runningTaskT, subtasks := [("A1", pendingEntry)],
               chat_history := [] }
    ∧ (alookup (c3exec.handle_subtask_error "T" "boom" "A1" 7).active_tasks "T" = none
      ∧ (c3exec.handle_subtask_error "T" "boom" "A1" 7).task_manager.get_task "T"
          = some (Task.set_error runningTaskT
              ("Subtask executed by " ++ "A1" ++ " failed: " ++ "boom") 7)
      ∧ (Task.set_error runningTaskT
          ("Subtask executed by " ++ "A1" ++ " failed: " ++ "boom") 7).status
          = TaskStatus.failed
      ∧ (Task.set_error runningTaskT
          ("Subtask executed by " ++ "A1" ++ " failed: " ++ "boom") 7).error
          = some ("Subtask executed by " ++ "A1" ++ " failed: " ++ "boom")
      ∧ (∀ (m : Message) (deleg : Except String (List ChatMsg)) (now' : Nat),
          m.message_type = MessageType.result →
          truthyStr (m.content.get "task_id") = some "T" →
          (c3exec.handle_subtask_error "T" "boom" "A1" 7).handle_message m deleg now'
            = { c3exec.handle_subtask_error "T" "boom" "A1" 7 with last_active := now' })) :=
  ⟨rfl, C3_error_fails_task c3exec "T" "boom" "A1" _ 7 rfl rfl (by decide)⟩

/-! ### C9 — empty subtask map finalizes on the first RESULT -/

/-- C9: for every task tracked with an empty subtask map (as `execute_task`
    initializes it), the first RESULT referencing that task id, from any
    sender, immediately finalizes the task: the all-completed check is
    vacuously true, so the task is completed with the empty dict `{}` as its
    result, persisted, and removed from the active table. -/
theorem C9_empty_subtasks_finalize (e : ExecutorAgent) (tid sender : String)
    (res : Payload) (entry : ActiveEntry) (now : Nat)
    (htrack : alookup e.active_tasks tid = some entry)
    (hsub : entry.subtasks = [])
    (hid : entry.task.task_id = tid)
    (hnd : (e.active_tasks.map Prod.fst).Nodup) :
    alookup (e.handle_subtask_result tid res sender now).active_tasks tid = none
    ∧ (e.handle_subtask_result tid res sender now).task_manager.get_task tid
        = some (Task.set_result entry.task (Payload.dict []) now)
    ∧ (Task.set_result entry.task (Payload.dict []) now).status
        = TaskStatus.completed
    ∧ (Task.set_result entry.task (Payload.dict []) now).result
        = some (Payload.dict []) := by
  have hlook1 : alookup (aset e.active_tasks tid { entry with subtasks := entry.subtasks }) tid
      = some { entry with subtasks := entry.subtasks } := alookup_aset_self _ _ _
  have hkeys : (aset e.active_tasks tid { entry with subtasks := entry.subtasks }).map Prod.fst
      = e.active_tasks.map Prod.fst := keys_aset_of_mem _ _ _ (by simp [htrack])
  refine ⟨?_, ?_, rfl, rfl⟩
  · simp only [ExecutorAgent.handle_subtask_result, htrack, hsub]
    simp only [alookup, List.all_nil, if_pos rfl]
    simp only [ExecutorAgent.finalize_task]
    rw [show aset e.active_tasks tid { entry with subtasks := ([] : List (String × SubEntry)) }
        = aset e.active_tasks tid { entry with subtasks := entry.subtasks } by rw [hsub]]
    rw [hlook1]
    refine alookup_adel_self _ _ ?_
    rw [hkeys]
    exact hnd
  · simp only [ExecutorAgent.handle_subtask_result, htrack, hsub]
    simp only [alookup, List.all_nil, if_pos rfl]
    simp only [ExecutorAgent.finalize_task]
    rw [show aset e.active_tasks tid { entry with subtasks := ([] : List (String × SubEntry)) }
        = aset e.active_tasks tid { entry with subtasks := entry.subtasks } by rw [hsub]]
    rw [hlook1]
    simp only [hsub, List.filter_nil, List.map_nil, TaskManager.get_task,
      TaskManager.update_task]
    rw [show (Task.set_result entry.task (Payload.dict []) now).task_id = tid from hid]
    exact alookup_aset_self _ _ _

/-- An executor tracking task `"T"` with an empty subtask map, as
    `execute_task` leaves it. -/
def c9exec : ExecutorAgent :=
  { task_manager := { tasks := [("T", runningTaskT)] },
    active_tasks := [("T",
      { task := runningTaskT, subtasks := [], chat_history := [] })],
    last_active := 0 }

/-- C9, witness: the first RESULT (from the arbitrary sender `"A9"`)
    finalizes the concrete executor's task `"T"` with `{}` as its result. -/
theorem C9_witness :
    alookup c9exec.active_tasks "T"
      = some { task := runningTaskT, subtasks := [], chat_history := [] }
    ∧ (alookup (c9exec.handle_subtask_result "T" (Payload.str "r") "A9" 3).active_tasks "T" = none
      ∧ (c9exec.handle_subtask_result "T" (Payload.str "r") "A9" 3).task_manager.get_task "T"
          = some (Task.set_result runningTaskT (Payload.dict []) 3)
      ∧ (Task.set_result runningTaskT (Payload.dict []) 3).status = TaskStatus.completed
      ∧ (Task.set_result runningTaskT (Payload.dict []) 3).result = some (Payload.dict [])) :=
  ⟨rfl, C9_empty_subtasks_finalize c9exec "T" "A9" (Payload.str "r") _ 3 rfl rfl rfl (by decide)⟩

/-! ### C7 — delegation faults are converted into task failure -/

/-- C7: if the delegation raises, `execute_task` catches the exception, sets
    the task to FAILED with an error describing the fault, persists it via
    the task manager, and removes it from the active-task table; and for
    every delegation outcome, once `execute_task` returns the task is absent
    from the active table and its persisted status is never RUNNING. -/
theorem C7_delegation_fault_cleanup (e : ExecutorAgent) (task : Task)
    (exc : String) (now : Nat)
    (hnd : (e.active_tasks.map Prod.fst).Nodup) :
    ((e.execute_task task (Except.error exc) now).task_manager.get_task task.task_id
        = some (Task.set_error (Task.update_status task TaskStatus.running now)
            ("Error during execution: " ++ exc) now)
      ∧ (Task.set_error (Task.update_status task TaskStatus.running now)
          ("Error during execution: " ++ exc) now).status = TaskStatus.failed
      ∧ (Task.set_error (Task.update_status task TaskStatus.running now)
          ("Error during execution: " ++ exc) now).error
          = some ("Error during execution: " ++ exc)
      ∧ alookup (e.execute_task task (Except.error exc) now).active_tasks task.task_id
          = none)
    ∧ (∀ deleg : Except String (List ChatMsg),
        alookup (e.execute_task task deleg now).active_tasks task.task_id = none
        ∧ ∃ t', (e.execute_task task deleg now).task_manager.get_task task.task_id
              = some t'
            ∧ t'.status ≠ TaskStatus.running) := by
  have hnd1 : ((aset e.active_tasks (Task.update_status task TaskStatus.running now).task_id
      { task := Task.update_status task TaskStatus.running now, subtasks := [],
        chat_history := [] }).map Prod.fst).Nodup :=
    nodup_keys_aset _ _ _ hnd
  constructor
  · refine ⟨?_, rfl, rfl, ?_⟩
    · simp only [ExecutorAgent.execute_task, TaskManager.get_task,
        TaskManager.update_task]
      rw [show (Task.set_error (Task.update_status task TaskStatus.running now)
          ("Error during execution: " ++ exc) now).task_id = task.task_id from rfl]
      exact alookup_aset_self _ _ _
    · simp only [ExecutorAgent.execute_task]
      exact alookup_adel_self _ _ hnd1
  · intro deleg
    cases deleg with
    | error exc' =>
        constructor
        · simp only [ExecutorAgent.execute_task]
          exact alookup_adel_self _ _ hnd1
        · refine ⟨Task.set_error (Task.update_status task TaskStatus.running now)
            ("Error during execution: " ++ exc') now, ?_, by simp [Task.set_error,
              Task.update_status]⟩
          simp only [ExecutorAgent.execute_task, TaskManager.get_task,
            TaskManager.update_task]
          exact alookup_aset_self _ _ _
    | ok chat_history =>
        have hactive2 : alookup (aset e.active_tasks
            (Task.update_status task TaskStatus.running now).task_id
            { task := Task.update_status task TaskStatus.running now, subtasks := [],
              chat_history := [] })
            (Task.update_status task TaskStatus.running now).task_id
            = some ({ task := Task.update_status task TaskStatus.running now, subtasks := [], chat_history := [] } : ActiveEntry) :=
          alookup_aset_self _ _ _
        cases hlast : (chat_history.filter fun msg =>
            msg.role == "assistant" && msg.name == "executor").getLast? with
        | none =>
            constructor
            · simp only [ExecutorAgent.execute_task, hactive2, hlast]
              exact alookup_adel_self _ _ (nodup_keys_aset _ _ _ hnd1)
            · refine ⟨Task.set_error (Task.update_status task TaskStatus.running now)
                "No final result was produced by the executor agent" now, ?_,
                by simp [Task.set_error, Task.update_status]⟩
              simp only [ExecutorAgent.execute_task, hactive2, hlast,
                TaskManager.get_task, TaskManager.update_task]
              exact alookup_aset_self _ _ _
        | some lastMsg =>
            constructor
            · simp only [ExecutorAgent.execute_task, hactive2, hlast]
              exact alookup_adel_self _ _ (nodup_keys_aset _ _ _ hnd1)
            · refine ⟨Task.set_result (Task.update_status task TaskStatus.running now)
                lastMsg.content now, ?_, by simp [Task.set_result, Task.update_status]⟩
              simp only [ExecutorAgent.execute_task, hactive2, hlast,
                TaskManager.get_task, TaskManager.update_task]
              exact alookup_aset_self _ _ _

/-- An executor with an empty active table and one stored task. -/
def c7exec : ExecutorAgent :=
  { task_manager := { tasks := [("T", runningTaskT)] },
    active_tasks := [], last_active := 0 }

/-- C7, witness: the theorem applied to the concrete executor with the
    delegation raising `"down"`. -/
theorem C7_witness :
    (c7exec.active_tasks.map Prod.fst).Nodup
    ∧ (((c7exec.execute_task freshTask (Except.error "down") 4).task_manager.get_task
          freshTask.task_id
        = some (Task.set_error (Task.update_status freshTask TaskStatus.running 4)
            ("Error during execution: " ++ "down") 4)
      ∧ (Task.set_error (Task.update_status freshTask TaskStatus.running 4)
          ("Error during execution: " ++ "down") 4).status = TaskStatus.failed
      ∧ (Task.set_error (Task.update_status freshTask TaskStatus.running 4)
          ("Error during execution: " ++ "down") 4).error
          = some ("Error during execution: " ++ "down")
      ∧ alookup (c7exec.execute_task freshTask (Except.error "down") 4).active_tasks
          freshTask.task_id = none)
    ∧ (∀ deleg : Except String (List ChatMsg),
        alookup (c7exec.execute_task freshTask deleg 4).active_tasks freshTask.task_id
          = none
        ∧ ∃ t', (c7exec.execute_task freshTask deleg 4).task_manager.get_task
              freshTask.task_id = some t'
            ∧ t'.status ≠ TaskStatus.running)) :=
  ⟨by decide, C7_delegation_fault_cleanup c7exec freshTask "down" 4 (by decide)⟩

/-! ### C2 — RESULT recording and aggregation -/

/-- C2, counterexample: the claim says that on receiving a RESULT for a
    tracked task the orchestrator records `{status: completed, result}` for
    the sending agent. `_handle_subtask_result` only updates an entry that
    already exists for the sender: on the concrete executor tracking task
    `"T"` (whose subtask map holds only `"A1"`), a RESULT from `"A2"` records
    nothing — the task stays tracked with its subtask map unchanged and no
    entry for `"A2"`. -/
theorem C2_counterexample :
    alookup (c3exec.handle_subtask_result "T" (Payload.str "r2") "A2" 1).active_tasks "T"
      = some { task := runningTaskT, subtasks := [("A1", pendingEntry)],
               chat_history := [] }
    ∧ alookup ([("A1", pendingEntry)] : List (String × SubEntry)) "A2" = none :=
  ⟨rfl, rfl⟩

/-- C2, amended: for every task tracked in the orchestrator's active table,
    on receiving a RESULT referencing that task id the orchestrator records
    `{status: completed, result}` for the sending agent only when that agent
    already has a subtask-tracking entry — a RESULT from a sender without an
    entry records nothing; the recording overwrites the sender's entry in
    place without adding a key, so a duplicate RESULT from the same agent
    means the last one wins and still counts once toward completion; when
    every tracked subtask is completed, the per-agent results are aggregated
    into a dict keyed by agent id, set as the task's result (transitioning it
    to COMPLETED), persisted, and the task is removed from the active table
    (until then the task manager is untouched). -/
theorem C2_result_recording (e : ExecutorAgent) (tid sender : String)
    (res res2 : Payload) (entry : ActiveEntry) (now : Nat)
    (htrack : alookup e.active_tasks tid = some entry)
    (hid : entry.task.task_id = tid)
    (hnd : (e.active_tasks.map Prod.fst).Nodup) :
    (alookup entry.subtasks sender = none →
      ∀ entry', alookup (e.handle_subtask_result tid res sender now).active_tasks tid
          = some entry' → entry'.subtasks = entry.subtasks)
    ∧ (∀ s0, alookup entry.subtasks sender = some s0 →
        (alookup (aset entry.subtasks sender (markDone s0 res)) sender
            = some (markDone s0 res)
          ∧ (markDone s0 res).status = "completed"
          ∧ (markDone s0 res).result = res
          ∧ (aset entry.subtasks sender (markDone s0 res)).map Prod.fst
              = entry.subtasks.map Prod.fst)
        ∧ (alookup (aset (aset entry.subtasks sender (markDone s0 res)) sender
              (markDone (markDone s0 res) res2)) sender
            = some (markDone (markDone s0 res) res2)
          ∧ (markDone (markDone s0 res) res2).result = res2
          ∧ (aset (aset entry.subtasks sender (markDone s0 res)) sender
              (markDone (markDone s0 res) res2)).map Prod.fst
              = entry.subtasks.map Prod.fst)
        ∧ (((aset entry.subtasks sender (markDone s0 res)).all
              fun kv => kv.2.status == "completed") = false →
            alookup (e.handle_subtask_result tid res sender now).active_tasks tid
              = some { entry with
                  subtasks := aset entry.subtasks sender (markDone s0 res) }
            ∧ (e.handle_subtask_result tid res sender now).task_manager
              = e.task_manager)
        ∧ (((aset entry.subtasks sender (markDone s0 res)).all
              fun kv => kv.2.status == "completed") = true →
            alookup (e.handle_subtask_result tid res sender now).active_tasks tid
              = none
            ∧ (e.handle_subtask_result tid res sender now).task_manager.get_task tid
              = some (Task.set_result entry.task
                  (Payload.dict ((aset entry.subtasks sender (markDone s0 res)).map
                      fun kv => (kv.1, kv.2.result))) now)
            ∧ (Task.set_result entry.task
                (Payload.dict ((aset entry.subtasks sender (markDone s0 res)).map
                    fun kv => (kv.1, kv.2.result))) now).status
              = TaskStatus.completed)) := by
  constructor
  · intro hnone entry' hlook
    cases hall : entry.subtasks.all fun kv => kv.2.status == "completed" with
    | false =>
        simp only [ExecutorAgent.handle_subtask_result, htrack, hnone, hall,
          Bool.false_eq_true, if_false] at hlook
        rw [alookup_aset_self] at hlook
        cases hlook
        rfl
    | true =>
        simp only [ExecutorAgent.handle_subtask_result, htrack, hnone, hall,
          if_true, ExecutorAgent.finalize_task, alookup_aset_self] at hlook
        rw [alookup_adel_self] at hlook
        · cases hlook
        · rw [keys_aset_of_mem _ _ _ (by simp [htrack])]
          exact hnd
  · intro s0 hs0
    have hsome : (alookup entry.subtasks sender).isSome := by simp [hs0]
    refine ⟨⟨alookup_aset_self _ _ _, rfl, rfl, keys_aset_of_mem _ _ _ hsome⟩,
      ⟨alookup_aset_self _ _ _, rfl, ?_⟩, ?_, ?_⟩
    · rw [keys_aset_of_mem _ _ _ (by simp [alookup_aset_self]),
        keys_aset_of_mem _ _ _ hsome]
    · intro hall
      simp only [ExecutorAgent.handle_subtask_result, htrack, hs0, hall,
        Bool.false_eq_true, if_false]
      exact ⟨alookup_aset_self _ _ _, trivial⟩
    · intro hall
      simp only [ExecutorAgent.handle_subtask_result, htrack, hs0, hall, if_true,
        ExecutorAgent.finalize_task, alookup_aset_self]
      have hfilter : ((aset entry.subtasks sender (markDone s0 res)).filter
            fun kv => kv.2.status == "completed")
          = aset entry.subtasks sender (markDone s0 res) :=
        List.filter_eq_self.mpr (by simpa [List.all_eq_true] using hall)
      rw [hfilter]
      refine ⟨?_, ?_, rfl⟩
      · rw [alookup_adel_self]
        rw [keys_aset_of_mem _ _ _ (by simp [htrack])]
        exact hnd
      · simp only [TaskManager.get_task, TaskManager.update_task]
        rw [show (Task.set_result entry.task
            (Payload.dict ((aset entry.subtasks sender (markDone s0 res)).map
                fun kv => (kv.1, kv.2.result))) now).task_id = tid from hid]
        exact alookup_aset_self _ _ _

/-- A completed subtask entry for agent `"A1"` holding result `"r1"`. -/
def doneEntryA1 : SubEntry :=
  { status := "completed", result := Payload.str "r1", error := none }

/-- An executor tracking task `"T"` with subtask entries for `"A1"`
    (completed) and `"A2"` (pending). -/
def c2exec : ExecutorAgent :=
  { task_manager := { tasks := [("T", runningTaskT)] },
    active_tasks := [("T",
      { task := runningTaskT,
        subtasks := [("A1", doneEntryA1), ("A2", pendingEntry)],
        chat_history := [] })],
    last_active := 0 }

/-- C2, witness: the amended theorem applied to the concrete executor; the
    RESULT from `"A2"` completes the last pending entry, so the tracked-sender
    branch and the all-completed finalization branch both fire. -/
theorem C2_witness :
    alookup c2exec.active_tasks "T"
      = some { task := runningTaskT,
               subtasks := [("A1", doneEntryA1), ("A2", pendingEntry)],
               chat_history := [] }
    ∧ ((alookup ([("A1", doneEntryA1), ("A2", pendingEntry)] : List (String × SubEntry)) "A2"
          = none →
        ∀ entry', alookup (c2exec.handle_subtask_result "T" (Payload.str "r2") "A2" 9).active_tasks "T"
            = some entry' →
          entry'.subtasks = [("A1", doneEntryA1), ("A2", pendingEntry)])
      ∧ (∀ s0, alookup ([("A1", doneEntryA1), ("A2", pendingEntry)] : List (String × SubEntry)) "A2"
            = some s0 →
          (alookup (aset [("A1", doneEntryA1), ("A2", pendingEntry)] "A2"
                (markDone s0 (Payload.str "r2"))) "A2"
              = some (markDone s0 (Payload.str "r2"))
            ∧ (markDone s0 (Payload.str "r2")).status = "completed"
            ∧ (markDone s0 (Payload.str "r2")).result = Payload.str "r2"
            ∧ (aset [("A1", doneEntryA1), ("A2", pendingEntry)] "A2"
                (markDone s0 (Payload.str "r2"))).map Prod.fst
                = ([("A1", doneEntryA1), ("A2", pendingEntry)] : List (String × SubEntry)).map Prod.fst)
          ∧ (alookup (aset (aset [("A1", doneEntryA1), ("A2", pendingEntry)] "A2"
                  (markDone s0 (Payload.str "r2"))) "A2"
                (markDone (markDone s0 (Payload.str "r2")) (Payload.str "r3"))) "A2"
              = some (markDone (markDone s0 (Payload.str "r2")) (Payload.str "r3"))
            ∧ (markDone (markDone s0 (Payload.str "r2")) (Payload.str "r3")).result
              = Payload.str "r3"
            ∧ (aset (aset [("A1", doneEntryA1), ("A2", pendingEntry)] "A2"
                  (markDone s0 (Payload.str "r2"))) "A2"
                (markDone (markDone s0 (Payload.str "r2")) (Payload.str "r3"))).map Prod.fst
                = ([("A1", doneEntryA1), ("A2", pendingEntry)] : List (String × SubEntry)).map Prod.fst)
          ∧ (((aset [("A1", doneEntryA1), ("A2", pendingEntry)] "A2"
                  (markDone s0 (Payload.str "r2"))).all
                fun kv => kv.2.status == "completed") = false →
              alookup (c2exec.handle_subtask_result "T" (Payload.str "r2") "A2" 9).active_tasks "T"
                = some { task := runningTaskT,
                         subtasks := aset [("A1", doneEntryA1), ("A2", pendingEntry)] "A2" (markDone s0 (Payload.str "r2")),
                         chat_history := [] }
              ∧ (c2exec.handle_subtask_result "T" (Payload.str "r2") "A2" 9).task_manager
                = c2exec.task_manager)
          ∧ (((aset [("A1", doneEntryA1), ("A2", pendingEntry)] "A2"
                  (markDone s0 (Payload.str "r2"))).all
                fun kv => kv.2.status == "completed") = true →
              alookup (c2exec.handle_subtask_result "T" (Payload.str "r2") "A2" 9).active_tasks "T"
                = none
              ∧ (c2exec.handle_subtask_result "T" (Payload.str "r2") "A2" 9).task_manager.get_task "T"
                = some (Task.set_result runningTaskT
                    (Payload.dict ((aset [("A1", doneEntryA1), ("A2", pendingEntry)] "A2"
                        (markDone s0 (Payload.str "r2"))).map
                        fun kv => (kv.1, kv.2.result))) 9)
              ∧ (Task.set_result runningTaskT
                  (Payload.dict ((aset [("A1", doneEntryA1), ("A2", pendingEntry)] "A2"
                      (markDone s0 (Payload.str "r2"))).map
                      fun kv => (kv.1, kv.2.result))) 9).status
                = TaskStatus.completed))) :=
  ⟨rfl, C2_result_recording c2exec "T" "A2" (Payload.str "r2") (Payload.str "r3") _ 9
    rfl rfl (by decide)⟩

end NexAI
